import Mathlib

/-!
Verification of the DPDP compliance scoring and recommendation engine
(`src/app.py`): the question catalog (`get_assessment_questions`), the SDF
classifier (`calculate_sdf_score` and the `is_sdf` threshold from
`save_profile`), the compliance scorer (`calculate_compliance_score`), the
risk classifier (the threshold table inlined in `submit_assessment`), and
the recommendation ranker (`generate_recommendations`).

All numeric computation in the source is over Python ints and floats whose
values here are integers and halves of integers well below 2^53, with a
final division by the constant catalog weight sum; every value is therefore
exactly representable and the embedding uses `ℚ`.  Python's `round(x, 2)`
is round-half-to-even on the decimal value, embedded as `roundHalfEven`.
-/

/-- One entry of the fixed question catalog returned by
`get_assessment_questions`: id, category, weight and remediation text. -/
structure Question where
  id : String
  category : String
  weight : ℚ
  recommendation : String
deriving DecidableEq, Repr

/-- The `answers` dict of an assessment submission: a partial map from
question id to the submitted literal value. -/
def AnswerSet : Type := String → Option String

/-- `answers.get(q_id, 'No')` — lookup with default `"No"`. -/
def getAnswer (answers : AnswerSet) (qId : String) : String :=
  (answers qId).getD "No"

/-- The organization profile document fields consumed by
`calculate_sdf_score` (built from `data.get(...)` in `save_profile`;
any field may be absent). -/
structure Profile where
  businessType : Option String
  employeeCount : Option String
  dataVolume : Option String
  dataTypes : Option (List String)
  sensitiveData : Option String
  dataLocation : Option String
  thirdPartySharing : Option String
  crossBorderTransfer : Option String

/-- `calculate_sdf_score` (src/app.py:344-376): sequential accumulation
`score += ...` over the five profile attributes. -/
def calculate_sdf_score (profile : Profile) : ℕ :=
  let volume := profile.dataVolume.getD ""
  let volumeScore : ℕ :=
    if volume = "more_than_1_million" then 5
    else if volume = "100k_to_1_million" then 3
    else if volume = "10k_to_100k" then 2
    else 0
  let employees := profile.employeeCount.getD ""
  let employeeScore : ℕ :=
    if employees = "more_than_500" then 3
    else if employees = "100_to_500" then 2
    else 0
  let sensitiveScore : ℕ := if profile.sensitiveData = some "Yes" then 4 else 0
  let childrenScore : ℕ := if "Children Data" ∈ profile.dataTypes.getD [] then 5 else 0
  let crossBorderScore : ℕ := if profile.crossBorderTransfer = some "Yes" then 3 else 0
  volumeScore + employeeScore + sensitiveScore + childrenScore + crossBorderScore

/-- `is_sdf = sdf_score >= 10` (src/app.py:155). -/
def is_sdf (profile : Profile) : Bool :=
  decide (10 ≤ calculate_sdf_score profile)

/-- The status/risk threshold table inlined in `submit_assessment`
(src/app.py:204-213). -/
def classifyRisk (score : ℚ) : String × String :=
  if score ≥ 80 then ("Fully Compliant", "Low")
  else if score ≥ 50 then ("Partially Compliant", "Medium")
  else ("Non-Compliant", "High")

/-- `get_assessment_questions` (src/app.py:444-496): the fixed catalog of
25 questions. -/
def get_assessment_questions : List Question :=
  [⟨"q1", "Consent Management", 5,
     "Implement explicit consent mechanism before collecting personal data"⟩,
   ⟨"q2", "Consent Management", 4,
     "Create clear, accessible privacy notice explaining data usage"⟩,
   ⟨"q3", "Consent Management", 4,
     "Implement consent withdrawal mechanism"⟩,
   ⟨"q4", "Data Principal Rights", 5,
     "Create data access request fulfillment process"⟩,
   ⟨"q5", "Data Principal Rights", 5,
     "Implement data correction and updation process"⟩,
   ⟨"q6", "Data Principal Rights", 5,
     "Establish data deletion (Right to be Forgotten) process"⟩,
   ⟨"q7", "Data Principal Rights", 4,
     "Create data portability mechanism"⟩,
   ⟨"q8", "Data Security", 5,
     "Implement encryption for sensitive data storage"⟩,
   ⟨"q9", "Data Security", 5,
     "Establish access control and authentication systems"⟩,
   ⟨"q10", "Data Security", 4,
     "Conduct regular security audits and vulnerability assessments"⟩,
   ⟨"q11", "Data Retention", 4,
     "Define and document data retention policies"⟩,
   ⟨"q12", "Data Retention", 4,
     "Implement automated data deletion after retention period"⟩,
   ⟨"q13", "Data Processing", 4,
     "Establish Data Processing Agreements with all processors"⟩,
   ⟨"q14", "Data Processing", 3,
     "Implement processor audit and compliance verification"⟩,
   ⟨"q15", "Children Data", 5,
     "Implement parental consent mechanism for children\x27s data"⟩,
   ⟨"q16", "Breach Management", 5,
     "Create data breach notification process and templates"⟩,
   ⟨"q17", "Breach Management", 5,
     "Establish incident response plan and team"⟩,
   ⟨"q18", "Governance", 5,
     "Appoint Data Protection Officer (mandatory for SDF)"⟩,
   ⟨"q19", "Governance", 4,
     "Maintain comprehensive data processing records"⟩,
   ⟨"q20", "Governance", 4,
     "Conduct Data Protection Impact Assessments for high-risk processing"⟩,
   ⟨"q21", "Cross-border Transfer", 4,
     "Ensure adequate safeguards for international data transfers"⟩,
   ⟨"q22", "Transparency", 3,
     "Publish and regularly update privacy policy"⟩,
   ⟨"q23", "Accountability", 4,
     "Implement data protection compliance monitoring system"⟩,
   ⟨"q24", "Training", 3,
     "Conduct regular employee training on DPDP compliance"⟩,
   ⟨"q25", "Compliance", 4,
     "Establish grievance redressal mechanism for data principals"⟩]

/-- Per-category accumulator: the `{'earned': ..., 'possible': ...}` dict
value inside `category_scores` during the loop of
`calculate_compliance_score`. -/
structure CategoryAcc where
  earned : ℚ
  possible : ℚ
deriving DecidableEq, Repr

/-- Loop state of `calculate_compliance_score`: running totals plus the
insertion-ordered `category_scores` dict. -/
structure ScoreAcc where
  total_possible : ℚ
  total_earned : ℚ
  category_scores : List (String × CategoryAcc)
deriving DecidableEq, Repr

/-- The credit a question earns from an answer (src/app.py:395-401):
full weight for `"Yes"`, half for `"Partial"`, zero otherwise. -/
def creditOf (answer : String) (weight : ℚ) : ℚ :=
  if answer = "Yes" then weight
  else if answer = "Partial" then weight * 0.5
  else 0

/-- One dict update of `category_scores[category]`: initialize the bucket
to zero on first encounter (appended at the end, as Python dicts keep
insertion order) and add the question credit and weight to it. -/
def updateCat (cs : List (String × CategoryAcc)) (category : String)
    (credit weight : ℚ) : List (String × CategoryAcc) :=
  match cs with
  | [] => [(category, ⟨credit, weight⟩)]
  | (c, acc) :: rest =>
    if c = category then (c, ⟨acc.earned + credit, acc.possible + weight⟩) :: rest
    else (c, acc) :: updateCat rest category credit weight

/-- One iteration of the `for q in questions` loop in
`calculate_compliance_score` (src/app.py:384-404). -/
def scoreStep (answers : AnswerSet) (q : Question) (s : ScoreAcc) : ScoreAcc :=
  { total_possible := s.total_possible + q.weight
    total_earned := s.total_earned + creditOf (getAnswer answers q.id) q.weight
    category_scores :=
      updateCat s.category_scores q.category
        (creditOf (getAnswer answers q.id) q.weight) q.weight }

/-- The `for q in questions` loop of `calculate_compliance_score`. -/
def scoreLoop (answers : AnswerSet) : List Question → ScoreAcc → ScoreAcc
  | [], s => s
  | q :: qs, s => scoreLoop answers qs (scoreStep answers q s)

/-- A `category_scores` entry of the returned dict, after the
post-loop pass added the `'percentage'` key. -/
structure CategoryScore where
  earned : ℚ
  possible : ℚ
  percentage : ℚ
deriving DecidableEq, Repr

/-- The dict returned by `calculate_compliance_score`. -/
structure ScoreResult where
  percentage : ℚ
  total_earned : ℚ
  total_possible : ℚ
  category_scores : List (String × CategoryScore)
deriving DecidableEq, Repr

/-- Round-half-to-even to an integer, the behaviour of Python's builtin
`round` (exact here: every value this development rounds is an exact
rational, see the header comment). -/
def roundHalfEven (q : ℚ) : ℤ :=
  if q - ⌊q⌋ < 1/2 then ⌊q⌋
  else if 1/2 < q - ⌊q⌋ then ⌊q⌋ + 1
  else if Even ⌊q⌋ then ⌊q⌋ else ⌊q⌋ + 1

/-- Python's `round(x, 2)`: round to two decimal places. -/
def round2 (q : ℚ) : ℚ :=
  (roundHalfEven (q * 100) : ℚ) / 100

/-- `calculate_compliance_score` (src/app.py:378-419). -/
def calculate_compliance_score (answers : AnswerSet) : ScoreResult :=
  let s := scoreLoop answers get_assessment_questions ⟨0, 0, []⟩
  let percentage : ℚ :=
    if s.total_possible > 0 then s.total_earned / s.total_possible * 100 else 0
  { percentage := round2 percentage
    total_earned := s.total_earned
    total_possible := s.total_possible
    category_scores := s.category_scores.map fun ce =>
      (ce.1,
       { earned := ce.2.earned
         possible := ce.2.possible
         percentage :=
           if ce.2.possible > (0:ℚ) then ce.2.earned / ce.2.possible * 100 else 0 }) }

/-- An entry of the list built by `generate_recommendations`. -/
structure Recommendation where
  action : String
  category : String
  priority : String
deriving DecidableEq, Repr

/-- The `priority_map` dict `{'High': 1, 'Medium': 2, 'Low': 3}` of
`generate_recommendations`; the final `0` branch is unreachable on the
priorities the function builds. -/
def priority_map (p : String) : ℕ :=
  if p = "High" then 1 else if p = "Medium" then 2 else if p = "Low" then 3 else 0

/-- The emission loop of `generate_recommendations` (src/app.py:428-436):
for every catalog question whose answer is not `"Yes"`, append a
recommendation, `"High"` for answer `"No"` and `"Medium"` otherwise. -/
def emitRecommendations (answers : AnswerSet) : List Recommendation :=
  get_assessment_questions.filterMap fun q =>
    if getAnswer answers q.id ≠ "Yes" then
      some { action := q.recommendation
             category := q.category
             priority := if getAnswer answers q.id = "No" then "High" else "Medium" }
    else none

/-- The comparison underlying `recommendations.sort(key=lambda x:
priority_map[x['priority']])`: ascending priority rank. -/
def recLE (x y : Recommendation) : Prop :=
  priority_map x.priority ≤ priority_map y.priority

instance : DecidableRel recLE := fun x y =>
  inferInstanceAs (Decidable (priority_map x.priority ≤ priority_map y.priority))

/-- `generate_recommendations` (src/app.py:421-442): emit, stable-sort by
priority rank (Python's `list.sort` is stable; `List.insertionSort` with a
total preorder is the stable sort), return the first 10. -/
def generate_recommendations (answers : AnswerSet) : List Recommendation :=
  (List.insertionSort recLE (emitRecommendations answers)).take 10

/-- The empty `answers` dict. -/
def emptyAnswers : AnswerSet := fun _ => none

/-- An `answers` dict mapping every id to `"Yes"`. -/
def allYesAnswers : AnswerSet := fun _ => some "Yes"

/-- An `answers` dict mapping every id to `"No"`. -/
def allNoAnswers : AnswerSet := fun _ => some "No"

/-- The `answers` dict `{'q1': 'Maybe'}` extended with `"Yes"` elsewhere:
`"Maybe"` is outside the three documented literals. -/
def maybeAnswers : AnswerSet := fun qId => if qId = "q1" then some "Maybe" else some "Yes"

/-- A profile with every field absent. -/
def emptyProfile : Profile := ⟨none, none, none, none, none, none, none, none⟩

/-- The profile attaining every SDF contribution. -/
def maxProfile : Profile :=
  ⟨none, some "more_than_500", some "more_than_1_million", some ["Children Data"],
   some "Yes", none, none, some "Yes"⟩

/-! ### Spec-side definitions

These restate the specification text (sections 4.2 and 4.3) so the claim
theorems can compare the source functions against them. -/

/-- Spec 4.3: credit = weight×1.0 if `"Yes"`, weight×0.5 if `"Partial"`,
0 otherwise. -/
def specCredit (answer : String) (weight : ℚ) : ℚ :=
  if answer = "Yes" then weight * 1
  else if answer = "Partial" then weight * (1/2)
  else 0

/-- Spec: `totalPossible` is the sum of all catalog weights. -/
def specTotalPossible : ℚ :=
  (get_assessment_questions.map fun q => q.weight).sum

/-- Spec: `totalEarned` is the sum of the per-question credits, the answer
of an absent id defaulting to `"No"`. -/
def specTotalEarned (answers : AnswerSet) : ℚ :=
  (get_assessment_questions.map
    fun q => specCredit (getAnswer answers q.id) q.weight).sum

/-- Spec: a category's `possible` is the sum of the weights of its
questions. -/
def specCategoryPossible (c : String) : ℚ :=
  ((get_assessment_questions.filter fun q => q.category = c).map
    fun q => q.weight).sum

/-- Spec: a category's `earned` is the sum of the credits of its
questions. -/
def specCategoryEarned (answers : AnswerSet) (c : String) : ℚ :=
  ((get_assessment_questions.filter fun q => q.category = c).map
    fun q => specCredit (getAnswer answers q.id) q.weight).sum

/-- Spec 4.2: dataVolume contribution. -/
def specVolumeContribution (p : Profile) : ℕ :=
  if p.dataVolume = some "more_than_1_million" then 5
  else if p.dataVolume = some "100k_to_1_million" then 3
  else if p.dataVolume = some "10k_to_100k" then 2
  else 0

/-- Spec 4.2: employeeCount contribution. -/
def specEmployeeContribution (p : Profile) : ℕ :=
  if p.employeeCount = some "more_than_500" then 3
  else if p.employeeCount = some "100_to_500" then 2
  else 0

/-- Spec 4.2: sensitiveData contribution. -/
def specSensitiveContribution (p : Profile) : ℕ :=
  if p.sensitiveData = some "Yes" then 4 else 0

/-- Spec 4.2: children-data contribution. -/
def specChildrenContribution (p : Profile) : ℕ :=
  if "Children Data" ∈ p.dataTypes.getD [] then 5 else 0

/-- Spec 4.2: crossBorderTransfer contribution. -/
def specCrossBorderContribution (p : Profile) : ℕ :=
  if p.crossBorderTransfer = some "Yes" then 3 else 0

/-! ### Helper lemmas about the scoring loop -/

/-- Looking a category up in the `category_scores` association list. -/
def catLookup (c : String) : List (String × CategoryAcc) → Option CategoryAcc
  | [] => none
  | (c', acc) :: rest => if c' = c then some acc else catLookup c rest

theorem catLookup_updateCat_self (cs : List (String × CategoryAcc)) (cat : String)
    (credit weight : ℚ) :
    catLookup cat (updateCat cs cat credit weight) =
      some (match catLookup cat cs with
            | none => ⟨credit, weight⟩
            | some acc => ⟨acc.earned + credit, acc.possible + weight⟩) := by
  induction cs with
  | nil => simp [updateCat, catLookup]
  | cons hd tl ih =>
    obtain ⟨c', acc⟩ := hd
    by_cases h : c' = cat
    · subst h
      simp [updateCat, catLookup]
    · simp [updateCat, catLookup, h, ih]

theorem catLookup_updateCat_other (cs : List (String × CategoryAcc)) {c cat : String}
    (h : c ≠ cat) (credit weight : ℚ) :
    catLookup c (updateCat cs cat credit weight) = catLookup c cs := by
  induction cs with
  | nil => simp [updateCat, catLookup, Ne.symm h]
  | cons hd tl ih =>
    obtain ⟨c', acc⟩ := hd
    by_cases h' : c' = cat
    · subst h'
      simp [updateCat, catLookup, Ne.symm h]
    · simp [updateCat, catLookup, h', ih]

/-- The keys present in `updateCat cs cat _ _` are those of `cs` plus `cat`. -/
theorem updateCat_keys (cs : List (String × CategoryAcc)) (cat : String)
    (credit weight : ℚ) :
    (updateCat cs cat credit weight).map (fun ce => ce.1) =
      if cat ∈ cs.map (fun ce => ce.1) then cs.map (fun ce => ce.1)
      else cs.map (fun ce => ce.1) ++ [cat] := by
  induction cs with
  | nil => simp [updateCat]
  | cons hd tl ih =>
    obtain ⟨c', acc⟩ := hd
    by_cases h : c' = cat
    · subst h
      simp [updateCat]
    · simp [updateCat, h, ih, Ne.symm h]
      by_cases hmem : cat ∈ tl.map (fun ce => ce.1) <;> simp [hmem, Ne.symm h]

theorem mem_of_catLookup {cs : List (String × CategoryAcc)} {c : String}
    {acc : CategoryAcc} (h : catLookup c cs = some acc) : (c, acc) ∈ cs := by
  induction cs with
  | nil => simp [catLookup] at h
  | cons hd tl ih =>
    obtain ⟨c', acc'⟩ := hd
    by_cases h' : c' = c
    · subst h'
      simp [catLookup] at h
      simp [h]
    · simp [catLookup, h'] at h
      simp [ih h]

theorem catLookup_of_mem {cs : List (String × CategoryAcc)} {c : String}
    {acc : CategoryAcc} (hmem : (c, acc) ∈ cs)
    (hnd : (cs.map (fun ce => ce.1)).Nodup) : catLookup c cs = some acc := by
  induction cs with
  | nil => simp at hmem
  | cons hd tl ih =>
    obtain ⟨c', acc'⟩ := hd
    simp at hnd
    rcases List.mem_cons.mp hmem with heq | htl
    · rw [Prod.ext_iff] at heq
      obtain ⟨h1, h2⟩ := heq
      simp at h1 h2
      subst h1
      simp [catLookup, h2]
    · have hne : c' ≠ c := by
        intro hcc
        subst hcc
        exact hnd.1 acc (by simpa using htl)
      simp [catLookup, hne, ih htl hnd.2]

theorem scoreLoop_total_possible (a : AnswerSet) :
    ∀ (qs : List Question) (s : ScoreAcc),
      (scoreLoop a qs s).total_possible =
        s.total_possible + (qs.map fun q => q.weight).sum
  | [], s => by simp [scoreLoop]
  | q :: qs, s => by
    rw [scoreLoop, scoreLoop_total_possible a qs]
    simp [scoreStep]
    ring

theorem scoreLoop_total_earned (a : AnswerSet) :
    ∀ (qs : List Question) (s : ScoreAcc),
      (scoreLoop a qs s).total_earned =
        s.total_earned + (qs.map fun q => creditOf (getAnswer a q.id) q.weight).sum
  | [], s => by simp [scoreLoop]
  | q :: qs, s => by
    rw [scoreLoop, scoreLoop_total_earned a qs]
    simp [scoreStep]
    ring

theorem scoreLoop_catLookup (a : AnswerSet) (c : String) :
    ∀ (qs : List Question) (s : ScoreAcc),
      catLookup c (scoreLoop a qs s).category_scores =
        match catLookup c s.category_scores with
        | some acc =>
            some ⟨acc.earned +
                    ((qs.filter fun q => q.category = c).map
                      fun q => creditOf (getAnswer a q.id) q.weight).sum,
                  acc.possible +
                    ((qs.filter fun q => q.category = c).map fun q => q.weight).sum⟩
        | none =>
            if (qs.filter fun q => q.category = c) = [] then none
            else
              some ⟨((qs.filter fun q => q.category = c).map
                      fun q => creditOf (getAnswer a q.id) q.weight).sum,
                    ((qs.filter fun q => q.category = c).map fun q => q.weight).sum⟩
  | [], s => by
    cases h : catLookup c s.category_scores <;> simp [scoreLoop, h]
  | q :: qs, s => by
    rw [scoreLoop, scoreLoop_catLookup a c qs]
    by_cases hc : q.category = c
    · subst hc
      simp only [scoreStep, catLookup_updateCat_self]
      cases h : catLookup q.category s.category_scores with
      | none =>
        simp [h, List.filter_cons]
      | some acc =>
        simp [h, List.filter_cons]
        constructor <;> ring
    · simp only [scoreStep,
        catLookup_updateCat_other s.category_scores (fun hh => hc hh.symm)]
      cases h : catLookup c s.category_scores with
      | none => simp [h, List.filter_cons, hc]
      | some acc => simp [h, List.filter_cons, hc]

theorem scoreLoop_keys_nodup (a : AnswerSet) :
    ∀ (qs : List Question) (s : ScoreAcc),
      ((s.category_scores.map fun ce => ce.1).Nodup) →
      (((scoreLoop a qs s).category_scores.map fun ce => ce.1).Nodup)
  | [], s => by simp [scoreLoop]
  | q :: qs, s => by
    intro hnd
    rw [scoreLoop]
    refine scoreLoop_keys_nodup a qs _ ?_
    simp only [scoreStep, updateCat_keys]
    by_cases hmem : q.category ∈ s.category_scores.map fun ce => ce.1
    · simpa [hmem] using hnd
    · simp only [hmem, if_false]
      simpa [List.nodup_append, hmem] using hnd

theorem scoreLoop_congr {a1 a2 : AnswerSet} :
    ∀ (qs : List Question) (s : ScoreAcc),
      (∀ q ∈ qs, getAnswer a1 q.id = getAnswer a2 q.id) →
      scoreLoop a1 qs s = scoreLoop a2 qs s
  | [], _, _ => rfl
  | q :: qs, s, h => by
    rw [scoreLoop, scoreLoop]
    have hstep : scoreStep a1 q s = scoreStep a2 q s := by
      simp [scoreStep, h q (by simp)]
    rw [hstep]
    exact scoreLoop_congr qs _ fun q' hq' => h q' (by simp [hq'])

theorem emitRecommendations_congr {a1 a2 : AnswerSet}
    (h : ∀ q ∈ get_assessment_questions, getAnswer a1 q.id = getAnswer a2 q.id) :
    emitRecommendations a1 = emitRecommendations a2 :=
  List.filterMap_congr fun q hq => by rw [h q hq]

theorem creditOf_nonneg (answer : String) {w : ℚ} (hw : 0 ≤ w) :
    0 ≤ creditOf answer w := by
  unfold creditOf
  by_cases h1 : answer = "Yes"
  · simpa [h1] using hw
  · by_cases h2 : answer = "Partial" <;> simp [h1, h2] <;> linarith

theorem creditOf_le (answer : String) {w : ℚ} (hw : 0 ≤ w) :
    creditOf answer w ≤ w := by
  unfold creditOf
  by_cases h1 : answer = "Yes"
  · simp [h1]
  · by_cases h2 : answer = "Partial" <;> simp [h1, h2] <;> linarith

theorem credits_sum_nonneg (a : AnswerSet) :
    ∀ qs : List Question, (∀ q ∈ qs, 0 ≤ q.weight) →
      0 ≤ (qs.map fun q => creditOf (getAnswer a q.id) q.weight).sum
  | [], _ => by simp
  | q :: qs, h => by
    simp only [List.map_cons, List.sum_cons]
    have h1 := creditOf_nonneg (getAnswer a q.id) (h q (by simp))
    have h2 := credits_sum_nonneg a qs fun q' hq' => h q' (by simp [hq'])
    linarith

theorem credits_sum_le (a : AnswerSet) :
    ∀ qs : List Question, (∀ q ∈ qs, 0 ≤ q.weight) →
      (qs.map fun q => creditOf (getAnswer a q.id) q.weight).sum ≤
        (qs.map fun q => q.weight).sum
  | [], _ => by simp
  | q :: qs, h => by
    simp only [List.map_cons, List.sum_cons]
    have h1 := creditOf_le (getAnswer a q.id) (h q (by simp))
    have h2 := credits_sum_le a qs fun q' hq' => h q' (by simp [hq'])
    linarith

theorem weights_sum_pos :
    ∀ qs : List Question, qs ≠ [] → (∀ q ∈ qs, 0 < q.weight) →
      0 < (qs.map fun q => q.weight).sum
  | [], hne, _ => absurd rfl hne
  | q :: qs, _, h => by
    simp only [List.map_cons, List.sum_cons]
    rcases List.eq_nil_or_concat qs with hnil | _
    · subst hnil
      simpa using h q (by simp)
    · have h1 := h q (by simp)
      have h2 : 0 ≤ (qs.map fun q => q.weight).sum := by
        have := weights_sum_nonneg qs fun q' hq' => le_of_lt (h q' (by simp [hq']))
        exact this
      linarith
where
  weights_sum_nonneg : ∀ qs : List Question, (∀ q ∈ qs, 0 ≤ q.weight) →
      0 ≤ (qs.map fun q => q.weight).sum
  | [], _ => by simp
  | q :: qs, h => by
    simp only [List.map_cons, List.sum_cons]
    have h1 := h q (by simp)
    have h2 := weights_sum_nonneg qs fun q' hq' => h q' (by simp [hq'])
    linarith

theorem ratio_bounds {e p : ℚ} (h0 : 0 ≤ e) (h1 : e ≤ p) (hp : 0 < p) :
    0 ≤ e / p * 100 ∧ e / p * 100 ≤ 100 := by
  constructor
  · positivity
  · rw [div_mul_eq_mul_div, div_le_iff₀ hp]
    linarith

theorem roundHalfEven_ge_floor (q : ℚ) : ⌊q⌋ ≤ roundHalfEven q := by
  unfold roundHalfEven
  by_cases h1 : q - ⌊q⌋ < 1/2
  · rw [if_pos h1]
  · rw [if_neg h1]
    by_cases h2 : 1/2 < q - ⌊q⌋
    · rw [if_pos h2]
      omega
    · rw [if_neg h2]
      by_cases h3 : Even ⌊q⌋
      · rw [if_pos h3]
      · rw [if_neg h3]
        omega

theorem roundHalfEven_le_ceil (q : ℚ) : roundHalfEven q ≤ ⌈q⌉ := by
  unfold roundHalfEven
  by_cases h1 : q - ⌊q⌋ < 1/2
  · rw [if_pos h1]
    exact Int.floor_le_ceil q
  · push_neg at h1
    have hlt : (⌊q⌋ : ℚ) < q := by linarith
    have hc : ⌊q⌋ + 1 ≤ ⌈q⌉ := Int.add_one_le_iff.mpr (Int.lt_ceil.mpr hlt)
    rw [if_neg (by linarith : ¬ q - ⌊q⌋ < 1/2)]
    by_cases h2 : 1/2 < q - ⌊q⌋
    · rw [if_pos h2]
      omega
    · rw [if_neg h2]
      by_cases h3 : Even ⌊q⌋
      · rw [if_pos h3]
        exact Int.floor_le_ceil q
      · rw [if_neg h3]
        omega

theorem round2_bounds {q : ℚ} (h0 : 0 ≤ q) (h1 : q ≤ 100) :
    0 ≤ round2 q ∧ round2 q ≤ 100 := by
  unfold round2
  have hf : (0:ℤ) ≤ ⌊q * 100⌋ := Int.floor_nonneg.mpr (by positivity)
  have hge := roundHalfEven_ge_floor (q * 100)
  have hle := roundHalfEven_le_ceil (q * 100)
  have hc : ⌈q * 100⌉ ≤ (10000:ℤ) := Int.ceil_le.mpr (by push_cast; linarith)
  have hlo : (0:ℤ) ≤ roundHalfEven (q * 100) := le_trans hf hge
  have hhi : roundHalfEven (q * 100) ≤ (10000:ℤ) := le_trans hle hc
  constructor
  · apply div_nonneg _ (by norm_num)
    exact_mod_cast hlo
  · rw [div_le_iff₀ (by norm_num : (0:ℚ) < 100)]
    have : (roundHalfEven (q * 100) : ℚ) ≤ 10000 := by exact_mod_cast hhi
    linarith

/-! ### Helper lemmas about the recommendation ranker -/

theorem recLE_total (x y : Recommendation) : recLE x y ∨ recLE y x := by
  unfold recLE
  omega

theorem priority_map_high : priority_map "High" = 1 := by decide

theorem priority_map_medium : priority_map "Medium" = 2 := by decide

theorem orderedInsert_append_of_not (a : Recommendation) :
    ∀ (L1 L2 : List Recommendation), (∀ x ∈ L1, ¬ recLE a x) →
      List.orderedInsert recLE a (L1 ++ L2) =
        L1 ++ List.orderedInsert recLE a L2
  | [], L2, _ => rfl
  | b :: L1, L2, h => by
    rw [List.cons_append, List.orderedInsert, if_neg (h b (by simp)),
      orderedInsert_append_of_not a L1 L2 fun x hx => h x (by simp [hx]),
      List.cons_append]

theorem orderedInsert_all_ge (a : Recommendation) :
    ∀ L : List Recommendation, (∀ x ∈ L, recLE a x) →
      List.orderedInsert recLE a L = a :: L
  | [], _ => rfl
  | b :: L, h => by
    simp only [List.orderedInsert]
    rw [if_pos (h b (by simp))]

theorem insertionSort_two_classes :
    ∀ l : List Recommendation,
      (∀ x ∈ l, x.priority = "High" ∨ x.priority = "Medium") →
      List.insertionSort recLE l =
        (l.filter fun x => x.priority = "High") ++
          (l.filter fun x => x.priority = "Medium")
  | [], _ => rfl
  | a :: l, h => by
    have ha := h a (by simp)
    have hl : ∀ x ∈ l, x.priority = "High" ∨ x.priority = "Medium" :=
      fun x hx => h x (by simp [hx])
    have hfH : ∀ x ∈ l.filter fun x => x.priority = "High", x.priority = "High" :=
      fun x hx => by simpa using (List.mem_filter.mp hx).2
    have hfM : ∀ x ∈ l.filter fun x => x.priority = "Medium", x.priority = "Medium" :=
      fun x hx => by simpa using (List.mem_filter.mp hx).2
    have hHM : ("High" : String) ≠ "Medium" := by decide
    simp only [List.insertionSort, insertionSort_two_classes l hl]
    rcases ha with hH | hM
    · rw [orderedInsert_all_ge a _ ?_]
      · simp [List.filter_cons, hH, hHM]
      · intro x hx
        unfold recLE
        rcases List.mem_append.mp hx with hx1 | hx1
        · rw [hH, hfH x hx1, priority_map_high]
        · rw [hH, hfM x hx1, priority_map_high, priority_map_medium]
          omega
    · rw [orderedInsert_append_of_not a _ _ ?_, orderedInsert_all_ge a _ ?_]
      · simp [List.filter_cons, hM, Ne.symm hHM]
      · intro x hx
        unfold recLE
        rw [hM, hfM x hx, priority_map_medium]
      · intro x hx
        unfold recLE
        rw [hM, hfH x hx, priority_map_medium, priority_map_high]
        omega

theorem emitRecommendations_priority (a : AnswerSet) :
    ∀ x ∈ emitRecommendations a, x.priority = "High" ∨ x.priority = "Medium" := by
  intro x hx
  unfold emitRecommendations at hx
  rw [List.mem_filterMap] at hx
  obtain ⟨q, _, hfq⟩ := hx
  by_cases h : getAnswer a q.id ≠ "Yes"
  · rw [if_pos h, Option.some.injEq] at hfq
    subst hfq
    by_cases h2 : getAnswer a q.id = "No" <;> simp [h2]
  · rw [if_neg h] at hfq
    exact absurd hfq (by simp)

/-- The ranker, rewritten: the stable sort of the emitted list puts the
`"High"` entries first, each block keeping emission (= catalog) order. -/
theorem generate_recommendations_eq (a : AnswerSet) :
    generate_recommendations a =
      (((emitRecommendations a).filter fun x => x.priority = "High") ++
        ((emitRecommendations a).filter fun x => x.priority = "Medium")).take 10 := by
  unfold generate_recommendations
  rw [insertionSort_two_classes _ (emitRecommendations_priority a)]

/-! ### Bridging and evaluation lemmas -/

theorem creditOf_eq_specCredit (answer : String) (weight : ℚ) :
    creditOf answer weight = specCredit answer weight := by
  unfold creditOf specCredit
  by_cases h1 : answer = "Yes" <;> by_cases h2 : answer = "Partial" <;>
    simp [h1, h2] <;> norm_num

theorem catalog_weights_pos : ∀ q ∈ get_assessment_questions, 0 < q.weight := by
  decide

theorem catalog_weights_nonneg : ∀ q ∈ get_assessment_questions, 0 ≤ q.weight :=
  fun q hq => le_of_lt (catalog_weights_pos q hq)

theorem catalog_weights_sum :
    (get_assessment_questions.map fun q => q.weight).sum = 107 := by
  norm_num [get_assessment_questions]

theorem ccs_total_earned (answers : AnswerSet) :
    (calculate_compliance_score answers).total_earned =
      (get_assessment_questions.map
        fun q => creditOf (getAnswer answers q.id) q.weight).sum := by
  simp only [calculate_compliance_score]
  rw [scoreLoop_total_earned]
  simp

theorem ccs_total_possible (answers : AnswerSet) :
    (calculate_compliance_score answers).total_possible = 107 := by
  simp only [calculate_compliance_score]
  rw [scoreLoop_total_possible]
  simp [catalog_weights_sum]

theorem ccs_percentage (answers : AnswerSet) :
    (calculate_compliance_score answers).percentage =
      round2 ((get_assessment_questions.map
                fun q => creditOf (getAnswer answers q.id) q.weight).sum / 107 * 100) := by
  have htp : (scoreLoop answers get_assessment_questions ⟨0, 0, []⟩).total_possible = 107 := by
    rw [scoreLoop_total_possible]
    simp [catalog_weights_sum]
  have hte : (scoreLoop answers get_assessment_questions ⟨0, 0, []⟩).total_earned =
      (get_assessment_questions.map
        fun q => creditOf (getAnswer answers q.id) q.weight).sum := by
    rw [scoreLoop_total_earned]
    simp
  simp only [calculate_compliance_score, htp, hte]
  rw [if_pos (by norm_num : (107:ℚ) > 0)]

theorem ccs_category_mem {answers : AnswerSet} {c : String} {sc : CategoryScore}
    (h : (c, sc) ∈ (calculate_compliance_score answers).category_scores) :
    sc.earned = ((get_assessment_questions.filter fun q => q.category = c).map
        fun q => creditOf (getAnswer answers q.id) q.weight).sum ∧
    sc.possible = ((get_assessment_questions.filter fun q => q.category = c).map
        fun q => q.weight).sum ∧
    0 < sc.possible ∧
    sc.percentage = sc.earned / sc.possible * 100 := by
  simp only [calculate_compliance_score] at h
  rw [List.mem_map] at h
  obtain ⟨⟨c', acc⟩, hmem, heq⟩ := h
  have hnd := scoreLoop_keys_nodup answers get_assessment_questions ⟨0, 0, []⟩ (by simp)
  have hlk := catLookup_of_mem hmem hnd
  rw [scoreLoop_catLookup] at hlk
  simp only [catLookup] at hlk
  by_cases hfil : (get_assessment_questions.filter fun q => q.category = c') = []
  · rw [if_pos hfil] at hlk
    exact absurd hlk (by simp)
  · rw [if_neg hfil] at hlk
    rw [Option.some.injEq] at hlk
    rw [Prod.ext_iff] at heq
    obtain ⟨hc, hsc⟩ := heq
    simp only at hc hsc
    subst hc
    subst hsc
    have hpos : 0 < ((get_assessment_questions.filter fun q => q.category = c').map
        fun q => q.weight).sum := by
      apply weights_sum_pos _ hfil
      intro q hq
      exact catalog_weights_pos q (List.mem_of_mem_filter hq)
    rw [← hlk]
    refine ⟨rfl, rfl, by simpa using hpos, ?_⟩
    simp only
    rw [if_pos (by simpa using hpos)]

theorem ccs_empty_eval :
    calculate_compliance_score emptyAnswers =
      ⟨0, 0, 107,
       [("Consent Management", ⟨0, 13, 0⟩), ("Data Principal Rights", ⟨0, 19, 0⟩),
        ("Data Security", ⟨0, 14, 0⟩), ("Data Retention", ⟨0, 8, 0⟩),
        ("Data Processing", ⟨0, 7, 0⟩), ("Children Data", ⟨0, 5, 0⟩),
        ("Breach Management", ⟨0, 10, 0⟩), ("Governance", ⟨0, 13, 0⟩),
        ("Cross-border Transfer", ⟨0, 4, 0⟩), ("Transparency", ⟨0, 3, 0⟩),
        ("Accountability", ⟨0, 4, 0⟩), ("Training", ⟨0, 3, 0⟩),
        ("Compliance", ⟨0, 4, 0⟩)]⟩ := by
  have h : scoreLoop emptyAnswers get_assessment_questions ⟨0, 0, []⟩ =
      ⟨107, 0,
       [("Consent Management", ⟨0, 13⟩), ("Data Principal Rights", ⟨0, 19⟩),
        ("Data Security", ⟨0, 14⟩), ("Data Retention", ⟨0, 8⟩),
        ("Data Processing", ⟨0, 7⟩), ("Children Data", ⟨0, 5⟩),
        ("Breach Management", ⟨0, 10⟩), ("Governance", ⟨0, 13⟩),
        ("Cross-border Transfer", ⟨0, 4⟩), ("Transparency", ⟨0, 3⟩),
        ("Accountability", ⟨0, 4⟩), ("Training", ⟨0, 3⟩),
        ("Compliance", ⟨0, 4⟩)]⟩ := by
    norm_num +decide [scoreLoop, scoreStep, updateCat, creditOf, getAnswer,
      emptyAnswers, get_assessment_questions]
  simp only [calculate_compliance_score, h]
  norm_num [round2, roundHalfEven]

theorem ccs_allYes_percentage :
    (calculate_compliance_score allYesAnswers).percentage = 100 := by
  have h : (get_assessment_questions.map
      fun q => creditOf (getAnswer allYesAnswers q.id) q.weight).sum = 107 := by
    norm_num +decide [creditOf, getAnswer, allYesAnswers, get_assessment_questions]
  rw [ccs_percentage, h]
  norm_num [round2, roundHalfEven]

/-! ## Claim theorems -/

/-- C1: for every AnswerSet, `calculate_compliance_score` credits each
catalog question weight×1.0 for `"Yes"`, weight×0.5 for `"Partial"` and 0
otherwise, with absent ids defaulting to `"No"`; `total_earned` and
`total_possible` are the corresponding sums over the catalog; the overall
percentage is totalEarned/totalPossible×100 rounded to exactly 2 decimal
places; every per-category percentage is that category's
earned/possible×100, left unrounded. -/
theorem calculate_compliance_score_refines_spec (answers : AnswerSet) :
    (calculate_compliance_score answers).total_earned = specTotalEarned answers ∧
    (calculate_compliance_score answers).total_possible = specTotalPossible ∧
    (calculate_compliance_score answers).percentage =
      round2 (specTotalEarned answers / specTotalPossible * 100) ∧
    ∀ c sc, (c, sc) ∈ (calculate_compliance_score answers).category_scores →
      sc.earned = specCategoryEarned answers c ∧
      sc.possible = specCategoryPossible c ∧
      sc.percentage = sc.earned / sc.possible * 100 := by
  have hspec : specTotalEarned answers =
      (get_assessment_questions.map
        fun q => creditOf (getAnswer answers q.id) q.weight).sum := by
    unfold specTotalEarned
    simp only [creditOf_eq_specCredit]
  have hposs : specTotalPossible = (107:ℚ) := by
    unfold specTotalPossible
    exact catalog_weights_sum
  refine ⟨?_, ?_, ?_, ?_⟩
  · rw [ccs_total_earned, hspec]
  · rw [ccs_total_possible, hposs]
  · rw [ccs_percentage, hspec, hposs]
  · intro c sc hmem
    obtain ⟨he, hp, _, hpct⟩ := ccs_category_mem hmem
    refine ⟨?_, ?_, hpct⟩
    · rw [he]
      unfold specCategoryEarned
      simp only [creditOf_eq_specCredit]
    · rw [hp]
      rfl

/-- Witness for C1 at the empty AnswerSet and the category
`"Compliance"`. -/
theorem calculate_compliance_score_refines_spec_witness :
    (⟨(0:ℚ), 4, 0⟩ : CategoryScore).earned = specCategoryEarned emptyAnswers "Compliance" ∧
    (⟨(0:ℚ), 4, 0⟩ : CategoryScore).possible = specCategoryPossible "Compliance" ∧
    (⟨(0:ℚ), 4, 0⟩ : CategoryScore).percentage =
      (⟨(0:ℚ), 4, 0⟩ : CategoryScore).earned /
        (⟨(0:ℚ), 4, 0⟩ : CategoryScore).possible * 100 :=
  (calculate_compliance_score_refines_spec emptyAnswers).2.2.2 "Compliance" ⟨0, 4, 0⟩
    (by rw [ccs_empty_eval]; simp)

/-- C2: the risk classification is total with lower-bound-inclusive bands:
≥ 80 is Fully Compliant/Low, [50, 80) is Partially Compliant/Medium,
< 50 is Non-Compliant/High; the boundary inputs 49.99, 50, 79.99 and 80
land as the spec states. -/
theorem classifyRisk_threshold_bands (p : ℚ) :
    (80 ≤ p → classifyRisk p = ("Fully Compliant", "Low")) ∧
    (50 ≤ p → p < 80 → classifyRisk p = ("Partially Compliant", "Medium")) ∧
    (p < 50 → classifyRisk p = ("Non-Compliant", "High")) ∧
    classifyRisk (4999/100) = ("Non-Compliant", "High") ∧
    classifyRisk 50 = ("Partially Compliant", "Medium") ∧
    classifyRisk (7999/100) = ("Partially Compliant", "Medium") ∧
    classifyRisk 80 = ("Fully Compliant", "Low") := by
  refine ⟨?_, ?_, ?_, ?_, ?_, ?_, ?_⟩
  · intro h
    simp [classifyRisk, h]
  · intro h1 h2
    have h3 : ¬ (p ≥ 80) := by linarith
    simp [classifyRisk, h3, h1]
  · intro h
    have h1 : ¬ (p ≥ 80) := by linarith
    have h2 : ¬ (p ≥ 50) := by linarith
    simp [classifyRisk, h1, h2]
  · norm_num [classifyRisk]
  · norm_num [classifyRisk]
  · norm_num [classifyRisk]
  · norm_num [classifyRisk]

/-- Witness for C2 exercising each band. -/
theorem classifyRisk_threshold_bands_witness :
    classifyRisk 90 = ("Fully Compliant", "Low") ∧
    classifyRisk 60 = ("Partially Compliant", "Medium") ∧
    classifyRisk 10 = ("Non-Compliant", "High") :=
  ⟨(classifyRisk_threshold_bands 90).1 (by norm_num),
   (classifyRisk_threshold_bands 60).2.1 (by norm_num) (by norm_num),
   (classifyRisk_threshold_bands 10).2.2.1 (by norm_num)⟩

/-- C3: `calculate_sdf_score` is the sum of the five independent
contributions of the spec table; unknown or missing values contribute 0;
`is_sdf` holds exactly when the score is at least 10. -/
theorem calculate_sdf_score_spec (p : Profile) :
    calculate_sdf_score p =
      specVolumeContribution p + specEmployeeContribution p +
        specSensitiveContribution p + specChildrenContribution p +
        specCrossBorderContribution p ∧
    (is_sdf p = true ↔ 10 ≤ calculate_sdf_score p) ∧
    (p.dataVolume ≠ some "more_than_1_million" →
      p.dataVolume ≠ some "100k_to_1_million" →
      p.dataVolume ≠ some "10k_to_100k" → specVolumeContribution p = 0) ∧
    (p.employeeCount ≠ some "more_than_500" →
      p.employeeCount ≠ some "100_to_500" → specEmployeeContribution p = 0) ∧
    (p.sensitiveData ≠ some "Yes" → specSensitiveContribution p = 0) ∧
    ("Children Data" ∉ p.dataTypes.getD [] → specChildrenContribution p = 0) ∧
    (p.crossBorderTransfer ≠ some "Yes" → specCrossBorderContribution p = 0) := by
  refine ⟨?_, by simp [is_sdf], ?_, ?_, ?_, ?_, ?_⟩
  · unfold calculate_sdf_score specVolumeContribution specEmployeeContribution
      specSensitiveContribution specChildrenContribution specCrossBorderContribution
    cases hdv : p.dataVolume <;> cases hec : p.employeeCount <;> simp +decide
  · intro h1 h2 h3
    simp [specVolumeContribution, h1, h2, h3]
  · intro h1 h2
    simp [specEmployeeContribution, h1, h2]
  · intro h
    simp [specSensitiveContribution, h]
  · intro h
    simp [specChildrenContribution, h]
  · intro h
    simp [specCrossBorderContribution, h]

/-- Witness for C3 at the all-absent profile: every contribution is 0. -/
theorem calculate_sdf_score_spec_witness :
    specVolumeContribution emptyProfile = 0 ∧
    specEmployeeContribution emptyProfile = 0 ∧
    specSensitiveContribution emptyProfile = 0 ∧
    specChildrenContribution emptyProfile = 0 ∧
    specCrossBorderContribution emptyProfile = 0 :=
  ⟨(calculate_sdf_score_spec emptyProfile).2.2.1 (by decide) (by decide) (by decide),
   (calculate_sdf_score_spec emptyProfile).2.2.2.1 (by decide) (by decide),
   (calculate_sdf_score_spec emptyProfile).2.2.2.2.1 (by decide),
   (calculate_sdf_score_spec emptyProfile).2.2.2.2.2.1 (by decide),
   (calculate_sdf_score_spec emptyProfile).2.2.2.2.2.2 (by decide)⟩

/-- C4 counterexample: with the unrecognized literal `"Maybe"` for q1 (and
`"Yes"` elsewhere), the code emits priority `"Medium"` for q1, not the
`"High"` the claim requires for unrecognized values. -/
theorem generate_recommendations_unrecognized_medium :
    getAnswer maybeAnswers "q1" = "Maybe" ∧
    generate_recommendations maybeAnswers =
      [⟨"Implement explicit consent mechanism before collecting personal data",
        "Consent Management", "Medium"⟩] ∧
    ∀ x ∈ generate_recommendations maybeAnswers, x.priority ≠ "High" := by
  decide

/-- C4 (amended): for every catalog question whose looked-up answer is not
`"Yes"`, the ranker emits a Recommendation carrying the catalog's
recommendation text and category, with priority `"High"` exactly when the
looked-up answer is `"No"` (in particular for absent ids) and `"Medium"`
for every other value, `"Partial"` and unrecognized literals alike. -/
theorem emitRecommendations_unmet_spec (answers : AnswerSet) :
    ∀ q ∈ get_assessment_questions, getAnswer answers q.id ≠ "Yes" →
      (⟨q.recommendation, q.category,
        if getAnswer answers q.id = "No" then "High" else "Medium"⟩ :
          Recommendation) ∈ emitRecommendations answers := by
  intro q hq hne
  unfold emitRecommendations
  rw [List.mem_filterMap]
  refine ⟨q, hq, ?_⟩
  rw [if_pos hne]

/-- Witness for the amended C4 at the empty AnswerSet and q1. -/
theorem emitRecommendations_unmet_spec_witness :
    (⟨"Implement explicit consent mechanism before collecting personal data",
      "Consent Management",
      if getAnswer emptyAnswers "q1" = "No" then "High" else "Medium"⟩ :
        Recommendation) ∈ emitRecommendations emptyAnswers :=
  emitRecommendations_unmet_spec emptyAnswers
    ⟨"q1", "Consent Management", 5,
     "Implement explicit consent mechanism before collecting personal data"⟩
    (List.mem_cons_self _ _) (by decide)

/-- C5 counterexample: the catalog spans 13 distinct categories, not 11. -/
theorem catalog_category_count_ne_eleven :
    ((get_assessment_questions.map fun q => q.category).dedup).length = 13 ∧
    ((get_assessment_questions.map fun q => q.category).dedup).length ≠ 11 := by
  decide

/-- C5 (amended): the catalog is a fixed sequence of exactly 25 questions
with pairwise distinct ids and positive weights, spanning exactly 13
distinct categories. -/
theorem catalog_shape :
    get_assessment_questions.length = 25 ∧
    (get_assessment_questions.map fun q => q.id).Nodup ∧
    (∀ q ∈ get_assessment_questions, 0 < q.weight) ∧
    ((get_assessment_questions.map fun q => q.category).dedup).length = 13 :=
  ⟨by decide, by decide, catalog_weights_pos, by decide⟩

/-- Witness for C5 (amended) at the first catalog question. -/
theorem catalog_shape_witness :
    0 < (⟨"q1", "Consent Management", 5,
          "Implement explicit consent mechanism before collecting personal data"⟩ :
          Question).weight :=
  catalog_shape.2.2.1 _ (List.mem_cons_self _ _)

/-- C6: the ranker's output has length at most 10 and equals the stable
priority sort of the emitted list — all `"High"` entries first, then all
`"Medium"` entries, each block in emission (= catalog) order — truncated
to the first 10 entries after sorting; no other priority occurs. -/
theorem generate_recommendations_sorted_stable_capped (answers : AnswerSet) :
    (generate_recommendations answers).length ≤ 10 ∧
    generate_recommendations answers =
      (((emitRecommendations answers).filter fun x => x.priority = "High") ++
        ((emitRecommendations answers).filter fun x => x.priority = "Medium")).take 10 ∧
    ∀ x ∈ generate_recommendations answers,
      x.priority = "High" ∨ x.priority = "Medium" := by
  refine ⟨?_, generate_recommendations_eq answers, ?_⟩
  · unfold generate_recommendations
    exact List.length_take_le _ _
  · intro x hx
    unfold generate_recommendations at hx
    have hx2 : x ∈ List.insertionSort recLE (emitRecommendations answers) :=
      (List.take_sublist _ _).mem hx
    have hx3 : x ∈ emitRecommendations answers :=
      (List.perm_insertionSort recLE (emitRecommendations answers)).mem_iff.mp hx2
    exact emitRecommendations_priority answers x hx3

/-- Witness for C6 at the empty AnswerSet and the first output entry. -/
theorem generate_recommendations_sorted_stable_capped_witness :
    (⟨"Implement explicit consent mechanism before collecting personal data",
      "Consent Management", "High"⟩ : Recommendation).priority = "High" ∨
    (⟨"Implement explicit consent mechanism before collecting personal data",
      "Consent Management", "High"⟩ : Recommendation).priority = "Medium" :=
  (generate_recommendations_sorted_stable_capped emptyAnswers).2.2 _ (by decide)

/-- C7: when every catalog question's looked-up answer is `"No"` (in
particular for the entirely empty AnswerSet), the overall percentage is 0
and the ranker returns exactly the first 10 catalog questions in catalog
order, all priority `"High"`. -/
theorem all_no_assessment (answers : AnswerSet)
    (h : ∀ q ∈ get_assessment_questions, getAnswer answers q.id = "No") :
    (calculate_compliance_score answers).percentage = 0 ∧
    generate_recommendations answers =
      (get_assessment_questions.take 10).map
        fun q => ⟨q.recommendation, q.category, "High"⟩ := by
  have hc : ∀ q ∈ get_assessment_questions,
      getAnswer answers q.id = getAnswer emptyAnswers q.id := by
    intro q hq
    rw [h q hq]
    rfl
  constructor
  · have heq : calculate_compliance_score answers =
        calculate_compliance_score emptyAnswers := by
      unfold calculate_compliance_score
      rw [scoreLoop_congr _ _ hc]
    rw [heq, ccs_empty_eval]
  · unfold generate_recommendations
    rw [emitRecommendations_congr hc]
    decide

/-- Witness for C7 at the all-`"No"` AnswerSet. -/
theorem all_no_assessment_witness :
    (calculate_compliance_score allNoAnswers).percentage = 0 ∧
    generate_recommendations allNoAnswers =
      (get_assessment_questions.take 10).map
        fun q => ⟨q.recommendation, q.category, "High"⟩ :=
  all_no_assessment allNoAnswers fun _ _ => rfl

/-- C8: when every catalog question's looked-up answer is `"Yes"`, the
overall percentage is 100.00 and the ranker returns the empty sequence. -/
theorem all_yes_assessment (answers : AnswerSet)
    (h : ∀ q ∈ get_assessment_questions, getAnswer answers q.id = "Yes") :
    (calculate_compliance_score answers).percentage = 100 ∧
    generate_recommendations answers = [] := by
  have hc : ∀ q ∈ get_assessment_questions,
      getAnswer answers q.id = getAnswer allYesAnswers q.id := by
    intro q hq
    rw [h q hq]
    rfl
  constructor
  · have heq : calculate_compliance_score answers =
        calculate_compliance_score allYesAnswers := by
      unfold calculate_compliance_score
      rw [scoreLoop_congr _ _ hc]
    rw [heq]
    exact ccs_allYes_percentage
  · unfold generate_recommendations
    rw [emitRecommendations_congr hc]
    decide

/-- Witness for C8 at the all-`"Yes"` AnswerSet. -/
theorem all_yes_assessment_witness :
    (calculate_compliance_score allYesAnswers).percentage = 100 ∧
    generate_recommendations allYesAnswers = [] :=
  all_yes_assessment allYesAnswers fun _ _ => rfl

/-- C9: every percentage in the score result — overall and per category —
lies in [0, 100], and the total possible weight is strictly positive. -/
theorem score_percentages_in_range (answers : AnswerSet) :
    0 ≤ (calculate_compliance_score answers).percentage ∧
    (calculate_compliance_score answers).percentage ≤ 100 ∧
    (∀ c sc, (c, sc) ∈ (calculate_compliance_score answers).category_scores →
      0 ≤ sc.percentage ∧ sc.percentage ≤ 100) ∧
    0 < (calculate_compliance_score answers).total_possible := by
  have hnn : 0 ≤ (get_assessment_questions.map
      fun q => creditOf (getAnswer answers q.id) q.weight).sum :=
    credits_sum_nonneg answers _ catalog_weights_nonneg
  have hub : (get_assessment_questions.map
      fun q => creditOf (getAnswer answers q.id) q.weight).sum ≤ 107 := by
    have := credits_sum_le answers _ catalog_weights_nonneg
    rwa [catalog_weights_sum] at this
  have hr := ratio_bounds hnn hub (by norm_num : (0:ℚ) < 107)
  have h2 := round2_bounds hr.1 hr.2
  refine ⟨?_, ?_, ?_, ?_⟩
  · rw [ccs_percentage]
    exact h2.1
  · rw [ccs_percentage]
    exact h2.2
  · intro c sc hmem
    obtain ⟨he, hp, hpos, hpct⟩ := ccs_category_mem hmem
    have hw : ∀ q ∈ get_assessment_questions.filter fun q => q.category = c,
        0 ≤ q.weight :=
      fun q hq => catalog_weights_nonneg q (List.mem_of_mem_filter hq)
    have h0 : 0 ≤ sc.earned := by
      rw [he]
      exact credits_sum_nonneg answers _ hw
    have h1 : sc.earned ≤ sc.possible := by
      rw [he, hp]
      exact credits_sum_le answers _ hw
    rw [hpct]
    exact ratio_bounds h0 h1 hpos
  · rw [ccs_total_possible]
    norm_num

/-- Witness for C9 at the empty AnswerSet and the category
`"Consent Management"`. -/
theorem score_percentages_in_range_witness :
    0 ≤ (⟨(0:ℚ), 13, 0⟩ : CategoryScore).percentage ∧
    (⟨(0:ℚ), 13, 0⟩ : CategoryScore).percentage ≤ 100 :=
  (score_percentages_in_range emptyAnswers).2.2.1 "Consent Management" ⟨0, 13, 0⟩
    (by rw [ccs_empty_eval]; simp)

/-- C10: the SDF score is bounded by 20 = 5+3+4+5+3 for every profile, and
the bound is attained. -/
theorem calculate_sdf_score_bounded :
    (∀ p : Profile, calculate_sdf_score p ≤ 20) ∧
    calculate_sdf_score maxProfile = 20 := by
  constructor
  · intro p
    simp only [calculate_sdf_score]
    repeat' split
    all_goals omega
  · decide
